import Mathlib

/-!
Verification development for the hardwareMonitor repository.

The Python source is shallowly embedded:

* `GitUpdater.check_pending_update` (main.py:347-364) becomes a pure
  transformer on an `FsState` recording the contents of the three file
  paths involved in promotion (live executable, `.backup`, `.update`).
* `GitUpdater.download_update` (main.py:478-509) becomes a transformer on
  `UpdaterState` parameterised by the outcome of the HTTP interaction.
* `GitUpdater.check_for_updates` (main.py:456-476) and
  `GitUpdater.get_latest_release` (main.py:412-454) are embedded the same
  way; `GitUpdater.get_local_version` (main.py:403-410) reads an
  `Option String` standing for the `version.txt` content (`none` models a
  missing or unreadable file, both caught by the bare `except`).
* The SQLite `metrics` table (main.py:47-92) becomes a `List MetricsRow`;
  `REAL` columns are embedded as `ℚ`, `INTEGER` columns as `Nat`, the
  `TEXT` timestamp key as `Nat` (ISO-8601 strings compare chronologically
  in SQLite's lexicographic TEXT order, so an ordered key is faithful),
  and nullable temperature columns as `Option ℚ`.
* `HardwareMonitor.write_metrics_to_db` / `write_metrics_compressed` /
  `write_metrics` (main.py:234-316) act on a `MonState`; each call of
  `get_hardware_metrics` consumes the next element of a sampling stream
  `sample : Nat → MetricsRow`, faithfully recording that the two write
  paths each sample separately.
* The query endpoints `api_latest`, `api_stats`, `api_temperatures`
  (webService.py:27-131) become pure functions of the store; SQL
  `ORDER BY timestamp DESC LIMIT n` is sorting by the descending-timestamp
  relation followed by `take`, SQL `AVG`/`MAX`/`MIN` skip NULLs via
  `filterMap`, and `COALESCE(x, 0)` is `Option.getD 0`.
-/

/-! ### Boot-time promotion (`GitUpdater.check_pending_update`) -/

/-- Contents of the three paths the promotion step touches:
the live executable (`self.executable_name`), the backup file
(`<executable>.backup`), and the staged artifact (`<executable>.update`).
`none` means the path does not exist. -/
structure FsState where
  live : Option String
  backup : Option String
  staged : Option String
deriving DecidableEq, Repr

/-- main.py:347-364. If the staged artifact exists: when the live
executable also exists it is moved to the backup path (overwriting any
prior backup), then the staged artifact is moved onto the live path.
When the live path is missing, the backup move is skipped (the
`os.path.exists` guard) and only the staged move runs. -/
def check_pending_update (fs : FsState) : FsState :=
  match fs.staged with
  | none => fs
  | some artifact =>
    let fs1 : FsState :=
      match fs.live with
      | some liveContent => { fs with backup := some liveContent, live := none }
      | none => fs
    { fs1 with live := some artifact, staged := none }

/-! ### Download and version check (`GitUpdater`) -/

/-- State the download path can touch: the live executable bytes (never
written by `download_update`), the staged-artifact slot
(`<executable>.update`), the `version.txt` content, and the in-memory
`self.current_version`. -/
structure UpdaterState where
  liveExe : Option (List Nat)
  stagedSlot : Option (List Nat)
  versionFile : Option String
  current_version : String
deriving DecidableEq, Repr

/-- Outcome of the artifact HTTP request in `download_update`:
`ok` is a 200 response whose body streams fully (all bytes written);
`httpError` is a non-200 status (no file is opened);
`streamError` is an exception raised while iterating/writing chunks,
after `written` bytes were already written to the temp file;
`connError` is an exception before the temp file is created. -/
inductive DownloadResponse where
  | ok (bytes : List Nat)
  | httpError (code : Nat)
  | streamError (written : List Nat)
  | connError
deriving DecidableEq, Repr

/-- main.py:478-509. On 200 the streamed bytes are written to the temp
update file, `version.txt` is overwritten with the fetched version, and
`self.current_version` is set. On a non-200 status or a pre-open
exception nothing is written. On an exception during streaming the
partially written temp file is left on disk (the `except` clause only
logs; there is no cleanup). -/
def download_update (version : String) (resp : DownloadResponse)
    (st : UpdaterState) : UpdaterState :=
  match resp with
  | .ok bytes =>
      { st with stagedSlot := some bytes
                versionFile := some version
                current_version := version }
  | .httpError _ => st
  | .streamError written => { st with stagedSlot := some written }
  | .connError => st

/-- Result of one `check_for_updates` run: how many times
`download_update` was invoked, the resulting updater state, and the
boolean the method returns. -/
structure CheckOutcome where
  downloads : Nat
  st : UpdaterState
  returned : Bool
deriving DecidableEq, Repr

/-- main.py:456-476. `latest` is the result of `get_latest_release`
(`none` when no version string was obtained). A version string different
from `self.current_version` (plain string inequality) triggers exactly
one `download_update` call; an equal string is a no-op. -/
def check_for_updates (st : UpdaterState) (latest : Option String)
    (resp : DownloadResponse) : CheckOutcome :=
  match latest with
  | none => ⟨0, st, false⟩
  | some v =>
    if v ≠ st.current_version then
      ⟨1, download_update v resp st, true⟩
    else
      ⟨0, st, false⟩

/-- Outcome of the release-index HTTP interaction in
`get_latest_release`: either a response with a status code (the tag
string is read from the body, and only consulted on 200), or an
exception (network failure, timeout, JSON parse error). -/
inductive ReleaseIndexOutcome where
  | status (code : Nat) (tag : String)
  | exn
deriving DecidableEq, Repr

/-- main.py:412-454. `conn` is the result of `test_connection`; when it
is false the method returns `None` early. A 200 response yields the tag
with every leading `v` stripped (`lstrip('v')`); the 404 branch, the 403
branch, the catch-all status branch and the exception handler each
return `None`. -/
def get_latest_release (conn : Bool) (o : ReleaseIndexOutcome) : Option String :=
  if conn = false then
    none
  else
    match o with
    | .status code tag =>
        if code = 200 then some (tag.dropWhile (fun c => c = 'v'))
        else if code = 404 then none
        else if code = 403 then none
        else none
    | .exn => none

/-- Python's `str.strip()` with no argument: remove whitespace from both
ends of the string, embedded over the character list. -/
def pyStrip (s : String) : String :=
  ⟨((s.data.dropWhile Char.isWhitespace).reverse.dropWhile Char.isWhitespace).reverse⟩

/-- main.py:403-410. `file` is the content of `version.txt`; `none`
models a missing or unreadable file (any exception lands in the bare
`except`). The content is stripped; a falsy (empty) result is replaced
by `"0.0.0"`. -/
def get_local_version (file : Option String) : String :=
  match file with
  | none => "0.0.0"
  | some s =>
    let version := pyStrip s
    if version = "" then "0.0.0" else version

/-! ### Theorems: updater claims -/

/-- C1: Boot-time promotion is re-entrant. Whenever a staged artifact
exists, `check_pending_update` ends with the live path holding the
formerly-staged content and the staged artifact gone; the backup ends
holding the formerly-live content when a live executable was present,
and is left untouched when the live path is missing (the interrupted
state), so re-running the check completes the promotion. -/
theorem check_pending_update_reentrant (fs : FsState) (a : String)
    (h : fs.staged = some a) :
    (check_pending_update fs).live = some a
    ∧ (check_pending_update fs).staged = none
    ∧ (∀ l, fs.live = some l → (check_pending_update fs).backup = some l)
    ∧ (fs.live = none → (check_pending_update fs).backup = fs.backup) := by
  cases fs with
  | mk live backup staged =>
    cases staged with
    | none => cases h
    | some x =>
      cases h
      cases live <;>
        simp [check_pending_update]

/-- C1 witness: starting from the interrupted state (backup holds the
formerly-live content, staged artifact present, live path missing),
re-running the check yields live = formerly-staged, backup untouched,
staged gone. -/
theorem check_pending_update_reentrant_witness :
    (check_pending_update ⟨none, some "oldExe", some "newExe"⟩).live = some "newExe"
    ∧ (check_pending_update ⟨none, some "oldExe", some "newExe"⟩).staged = none
    ∧ (check_pending_update ⟨none, some "oldExe", some "newExe"⟩).backup = some "oldExe" := by
  have h := check_pending_update_reentrant ⟨none, some "oldExe", some "newExe"⟩ "newExe" rfl
  exact ⟨h.1, h.2.1, h.2.2.2 rfl⟩

/-- C2: evaluation of `download_update` at a streaming failure. Starting
with an empty staged slot, a download attempt that raises an I/O error
after writing bytes `[1, 2, 3]` leaves those partial bytes in the
staged-artifact slot: the partial temp file is NOT deleted (the version
marker and in-memory version are unchanged, but the staged slot is not
restored), contradicting the claim that any partial temp file is removed
and all update state is left as before the attempt. -/
theorem download_update_stream_failure_keeps_partial :
    (download_update "1.2.0" (DownloadResponse.streamError [1, 2, 3])
        ⟨some [9], none, some "1.1.0", "1.1.0"⟩)
      = ⟨some [9], some [1, 2, 3], some "1.1.0", "1.1.0"⟩ := by
  rfl

/-- C4: the version check. If the obtained remote version equals the
in-memory current version, no download call occurs and the state is
unchanged. If it differs (plain string inequality), exactly one download
call occurs; when that download succeeds, `version.txt` is overwritten
with the fetched version string, the staged-artifact slot holds the
downloaded bytes, and the live executable is untouched. -/
theorem check_for_updates_spec (st : UpdaterState) (v : String)
    (resp : DownloadResponse) :
    (v = st.current_version → check_for_updates st (some v) resp = ⟨0, st, false⟩)
    ∧ (v ≠ st.current_version →
        (check_for_updates st (some v) resp).downloads = 1
        ∧ (∀ bytes, resp = DownloadResponse.ok bytes →
            (check_for_updates st (some v) resp).st.versionFile = some v
            ∧ (check_for_updates st (some v) resp).st.stagedSlot = some bytes
            ∧ (check_for_updates st (some v) resp).st.liveExe = st.liveExe
            ∧ (check_for_updates st (some v) resp).st.current_version = v)) := by
  constructor
  · intro heq
    simp [check_for_updates, heq]
  · intro hne
    refine ⟨by simp [check_for_updates, hne], ?_⟩
    intro bytes hb
    subst hb
    simp [check_for_updates, hne, download_update]

/-- C4 witness: remote "1.2.0" against local "1.1.0" triggers exactly
one download; on its success the version marker becomes "1.2.0", the
staged slot holds the fetched bytes, and the live executable is
untouched; remote "1.1.0" against local "1.1.0" is a no-op. -/
theorem check_for_updates_spec_witness :
    (check_for_updates ⟨some [9], none, some "1.1.0", "1.1.0"⟩ (some "1.1.0")
        (DownloadResponse.ok [7, 7]))
      = ⟨0, ⟨some [9], none, some "1.1.0", "1.1.0"⟩, false⟩
    ∧ (check_for_updates ⟨some [9], none, some "1.1.0", "1.1.0"⟩ (some "1.2.0")
        (DownloadResponse.ok [7, 7])).downloads = 1
    ∧ (check_for_updates ⟨some [9], none, some "1.1.0", "1.1.0"⟩ (some "1.2.0")
        (DownloadResponse.ok [7, 7])).st.versionFile = some "1.2.0"
    ∧ (check_for_updates ⟨some [9], none, some "1.1.0", "1.1.0"⟩ (some "1.2.0")
        (DownloadResponse.ok [7, 7])).st.stagedSlot = some [7, 7]
    ∧ (check_for_updates ⟨some [9], none, some "1.1.0", "1.1.0"⟩ (some "1.2.0")
        (DownloadResponse.ok [7, 7])).st.liveExe = some [9] := by
  have h1 := (check_for_updates_spec ⟨some [9], none, some "1.1.0", "1.1.0"⟩ "1.1.0"
    (DownloadResponse.ok [7, 7])).1 rfl
  have h2 := (check_for_updates_spec ⟨some [9], none, some "1.1.0", "1.1.0"⟩ "1.2.0"
    (DownloadResponse.ok [7, 7])).2 (by decide)
  exact ⟨h1, h2.1, (h2.2 [7, 7] rfl).1, (h2.2 [7, 7] rfl).2.1, (h2.2 [7, 7] rfl).2.2.1⟩

/-- C5 counterexample: the remote not-found outcome (HTTP 404) and the
transient network failure outcome (an exception) both produce the same
value `none`, so the two failure outcomes are NOT distinguishable to the
caller, refuting the claim. -/
theorem get_latest_release_collapses_failures :
    get_latest_release true (ReleaseIndexOutcome.status 404 "") = none
    ∧ get_latest_release true ReleaseIndexOutcome.exn = none := by
  constructor <;> rfl

/-- C5 amended: the release-index query collapses "no such release"
(HTTP 404) and transient network failure (exception) into the single
indistinguishable value `none` for every tag string; only the success
outcome (HTTP 200) yields a distinguishable `some` value, carrying the
tag with leading `v` characters stripped. -/
theorem get_latest_release_failure_semantics (tag tag2 : String) :
    get_latest_release true (ReleaseIndexOutcome.status 404 tag) = none
    ∧ get_latest_release true ReleaseIndexOutcome.exn = none
    ∧ get_latest_release true (ReleaseIndexOutcome.status 404 tag)
        = get_latest_release true ReleaseIndexOutcome.exn
    ∧ get_latest_release true (ReleaseIndexOutcome.status 200 tag2)
        = some (tag2.dropWhile (fun c => c = 'v')) := by
  refine ⟨?_, rfl, ?_, rfl⟩ <;> simp [get_latest_release]

/-- C10 counterexample: a version file whose content is the single space
`" "` is neither missing, unreadable, nor the empty string, yet
`get_local_version` returns `"0.0.0"` instead of the stripped content
`""`, refuting the claim as stated. -/
theorem get_local_version_whitespace_counterexample :
    get_local_version (some " ") = "0.0.0"
    ∧ (" " : String) ≠ ""
    ∧ pyStrip " " = ""
    ∧ get_local_version (some " ") ≠ pyStrip " " := by
  refine ⟨by decide, by decide, by decide, by decide⟩

/-- C10 amended: reading the local version raises no error and returns
`"0.0.0"` whenever the version file is missing or unreadable, or its
content strips to the empty string; otherwise it returns the content
with surrounding whitespace stripped. -/
theorem get_local_version_spec (file : Option String) :
    (file = none → get_local_version file = "0.0.0")
    ∧ (∀ s, file = some s → pyStrip s = "" → get_local_version file = "0.0.0")
    ∧ (∀ s, file = some s → pyStrip s ≠ "" → get_local_version file = pyStrip s) := by
  refine ⟨?_, ?_, ?_⟩
  · intro h; subst h; rfl
  · intro s hs he; subst hs; simp [get_local_version, he]
  · intro s hs he; subst hs; simp [get_local_version, he]

/-- C10 witness: a present file `" 1.2.0 "` yields the stripped content
`"1.2.0"`; a missing file yields `"0.0.0"`. -/
theorem get_local_version_spec_witness :
    get_local_version (some " 1.2.0 ") = pyStrip " 1.2.0 "
    ∧ get_local_version none = "0.0.0" := by
  exact ⟨(get_local_version_spec (some " 1.2.0 ")).2.2 " 1.2.0 " rfl (by decide),
    (get_local_version_spec none).1 rfl⟩

/-! ### Metrics store data model (`metrics` table, main.py:47-92) -/

/-- One row of the `metrics` table, column for column (the AUTOINCREMENT
`id` is omitted: no claim mentions it). `REAL` is embedded as `ℚ`,
`INTEGER` as `Nat`, the `TEXT` timestamp as an ordered `Nat` key, and
the nullable temperature columns as `Option ℚ` (the insert at
main.py:242-287 passes `None` for them when no sensor of that class was
found; every other bound value is non-null). `temperatures` holds the
JSON dump of the per-sensor map as text. -/
structure MetricsRow where
  timestamp : Nat
  cpu_percent : ℚ
  cpu_freq : ℚ
  cpu_count : Nat
  cpu_temp : Option ℚ
  memory_percent : ℚ
  memory_used_gb : ℚ
  memory_total_gb : ℚ
  memory_available_gb : ℚ
  disk_percent : ℚ
  disk_used_gb : ℚ
  disk_total_gb : ℚ
  disk_free_gb : ℚ
  disk_read_count : Nat
  disk_write_count : Nat
  disk_read_bytes : ℚ
  disk_write_bytes : ℚ
  temp_cpu : Option ℚ
  temp_gpu : Option ℚ
  temp_ssd : Option ℚ
  temp_hdd : Option ℚ
  temperatures : String
  network_bytes_sent : ℚ
  network_bytes_recv : ℚ
  network_packets_sent : Nat
  network_packets_recv : Nat
  processes_count : Nat
  threads_count : Nat
deriving DecidableEq, Repr

/-- The `INSERT INTO metrics` under the `UNIQUE` constraint on
`timestamp`: a row whose timestamp already keys an existing record
raises `sqlite3.IntegrityError`, which `write_metrics_to_db` swallows
(`except sqlite3.IntegrityError: pass`), leaving the table unchanged;
otherwise the row is appended. -/
def dbInsert (m : MetricsRow) (db : List MetricsRow) : List MetricsRow :=
  if db.any (fun r => r.timestamp == m.timestamp) then db else db ++ [m]

/-- Monitor-side persistent state: the primary SQLite table, the decoded
lines of the compressed `.jsonl.gz` archive, and a counter of
`get_hardware_metrics` calls made so far. Each call of
`get_hardware_metrics` returns the next element of the sampling stream
`sample` (a fresh wall-clock timestamp and fresh sensor readings). -/
structure MonState where
  db : List MetricsRow
  archive : List MetricsRow
  clock : Nat
deriving Repr

/-- main.py:234-295. Samples `get_hardware_metrics()` (consuming one
stream element) and inserts the snapshot into the primary table with
duplicate suppression. -/
def write_metrics_to_db (sample : Nat → MetricsRow) (s : MonState) : MonState :=
  let m := sample s.clock
  { s with clock := s.clock + 1, db := dbInsert m s.db }

/-- main.py:304-316. Samples `get_hardware_metrics()` AGAIN (a second,
separate stream element) and appends its JSON encoding as one line to
the compressed archive. -/
def write_metrics_compressed (sample : Nat → MetricsRow) (s : MonState) : MonState :=
  let m := sample s.clock
  { s with clock := s.clock + 1, archive := s.archive ++ [m] }

/-- main.py:297-302. One write tick: the DB write, then (when
`log_compression` is enabled) the compressed-archive write. -/
def write_metrics (sample : Nat → MetricsRow) (compression : Bool)
    (s : MonState) : MonState :=
  let s1 := write_metrics_to_db sample s
  if compression then write_metrics_compressed sample s1 else s1

/-! ### Query endpoints (webService.py) -/

/-- The descending-timestamp ordering used by
`ORDER BY timestamp DESC`: `tsGe a b` holds when `a`'s timestamp is at
least `b`'s, so a `tsGe`-sorted list is newest-first. -/
def tsGe (a b : MetricsRow) : Prop :=
  b.timestamp ≤ a.timestamp

instance : DecidableRel tsGe := fun a b =>
  inferInstanceAs (Decidable (b.timestamp ≤ a.timestamp))

instance : IsTotal MetricsRow tsGe :=
  ⟨fun a b => (le_total b.timestamp a.timestamp).elim Or.inl Or.inr⟩

instance : IsTrans MetricsRow tsGe :=
  ⟨fun _ _ _ hab hbc => le_trans hbc hab⟩

/-- `SELECT ... ORDER BY timestamp DESC` over the store. -/
def orderByTsDesc (store : List MetricsRow) : List MetricsRow :=
  List.insertionSort tsGe store

/-- The row shape `/api/latest` returns (webService.py:33-43): the
selected columns, with each temperature column wrapped in
`COALESCE(temp_x, 0)`, so the output temperature fields are plain
numbers, never null. -/
structure LatestRow where
  timestamp : Nat
  cpu_percent : ℚ
  memory_percent : ℚ
  disk_percent : ℚ
  temp_cpu : ℚ
  temp_gpu : ℚ
  temp_ssd : ℚ
  temp_hdd : ℚ
  network_bytes_sent : ℚ
  network_bytes_recv : ℚ
  processes_count : Nat
deriving DecidableEq, Repr

/-- The projection of one stored row performed by the `/api/latest`
SELECT list, with `COALESCE(temp_x, 0)` as `Option.getD 0`. -/
def projectLatest (r : MetricsRow) : LatestRow :=
  { timestamp := r.timestamp
    cpu_percent := r.cpu_percent
    memory_percent := r.memory_percent
    disk_percent := r.disk_percent
    temp_cpu := r.temp_cpu.getD 0
    temp_gpu := r.temp_gpu.getD 0
    temp_ssd := r.temp_ssd.getD 0
    temp_hdd := r.temp_hdd.getD 0
    network_bytes_sent := r.network_bytes_sent
    network_bytes_recv := r.network_bytes_recv
    processes_count := r.processes_count }

/-- webService.py:27-52. `ORDER BY timestamp DESC LIMIT 100`, an
explicit empty result when no rows matched, otherwise the fetched rows
reversed (so oldest of the window first). -/
def api_latest (store : List MetricsRow) : List LatestRow :=
  let rows := (orderByTsDesc store).take 100
  if rows = [] then []
  else (rows.reverse).map projectLatest

/-- SQL `AVG` over a column: NULL values are skipped before this is
applied (via `filterMap`); the aggregate of zero non-null values is
NULL. -/
def sqlAvg (vs : List ℚ) : Option ℚ :=
  if vs.isEmpty then none else some (vs.sum / (vs.length : ℚ))

/-- SQL `MAX` over a column, NULLs skipped the same way. -/
def sqlMaxQ : List ℚ → Option ℚ
  | [] => none
  | v :: vs =>
    match sqlMaxQ vs with
    | none => some v
    | some m => some (max v m)

/-- SQL `MIN(timestamp)`: NULL on an empty table. -/
def sqlMinNat : List Nat → Option Nat
  | [] => none
  | v :: vs =>
    match sqlMinNat vs with
    | none => some v
    | some m => some (min v m)

/-- The row `/api/stats` returns (webService.py:60-76), field for
field. -/
structure StatsOut where
  total_registros : Nat
  cpu_promedio : Option ℚ
  cpu_maximo : Option ℚ
  ram_promedio : Option ℚ
  ram_maximo : Option ℚ
  disk_promedio : Option ℚ
  disk_maximo : Option ℚ
  temp_cpu_avg : Option ℚ
  temp_cpu_max : Option ℚ
  temp_gpu_avg : Option ℚ
  temp_ssd_avg : Option ℚ
  temp_hdd_avg : Option ℚ
  desde : Option Nat
deriving DecidableEq, Repr

/-- webService.py:54-81. The whole-store aggregate: `COUNT(*)`,
`AVG`/`MAX` per metric column (SQL skips NULL temperature values, hence
`filterMap`; the non-temperature columns are never null, hence `map`),
and `MIN(timestamp)`. -/
def api_stats (store : List MetricsRow) : StatsOut :=
  { total_registros := store.length
    cpu_promedio := sqlAvg (store.map (fun r => r.cpu_percent))
    cpu_maximo := sqlMaxQ (store.map (fun r => r.cpu_percent))
    ram_promedio := sqlAvg (store.map (fun r => r.memory_percent))
    ram_maximo := sqlMaxQ (store.map (fun r => r.memory_percent))
    disk_promedio := sqlAvg (store.map (fun r => r.disk_percent))
    disk_maximo := sqlMaxQ (store.map (fun r => r.disk_percent))
    temp_cpu_avg := sqlAvg (store.filterMap (fun r => r.temp_cpu))
    temp_cpu_max := sqlMaxQ (store.filterMap (fun r => r.temp_cpu))
    temp_gpu_avg := sqlAvg (store.filterMap (fun r => r.temp_gpu))
    temp_ssd_avg := sqlAvg (store.filterMap (fun r => r.temp_ssd))
    temp_hdd_avg := sqlAvg (store.filterMap (fun r => r.temp_hdd))
    desde := sqlMinNat (store.map (fun r => r.timestamp)) }

/-- The payload `/api/temperatures` returns (webService.py:122-129): the
temperature columns of the newest row, passed through unchanged (NULL
stays null; no coalescing), plus the raw per-sensor JSON text (an empty
text falls back to the empty object). -/
structure TempsOut where
  timestamp : Nat
  cpu : Option ℚ
  gpu : Option ℚ
  ssd : Option ℚ
  hdd : Option ℚ
  all_sensors : String
deriving DecidableEq, Repr

/-- webService.py:105-131. `ORDER BY timestamp DESC LIMIT 1`; no row
yields the not-found signal (`none`, the HTTP 404 branch). -/
def api_temperatures (store : List MetricsRow) : Option TempsOut :=
  match (orderByTsDesc store).head? with
  | none => none
  | some r =>
      some { timestamp := r.timestamp
             cpu := r.temp_cpu
             gpu := r.temp_gpu
             ssd := r.temp_ssd
             hdd := r.temp_hdd
             all_sensors := if r.temperatures = "" then "\x7b\x7d" else r.temperatures }

/-! ### Shared concrete rows for witnesses -/

/-- A row with all metrics zero, no temperature sensors found, and an
empty sensor map; concrete instantiations below vary the fields a claim
cares about. -/
def baseRow : MetricsRow :=
  { timestamp := 0
    cpu_percent := 0
    cpu_freq := 0
    cpu_count := 0
    cpu_temp := none
    memory_percent := 0
    memory_used_gb := 0
    memory_total_gb := 0
    memory_available_gb := 0
    disk_percent := 0
    disk_used_gb := 0
    disk_total_gb := 0
    disk_free_gb := 0
    disk_read_count := 0
    disk_write_count := 0
    disk_read_bytes := 0
    disk_write_bytes := 0
    temp_cpu := none
    temp_gpu := none
    temp_ssd := none
    temp_hdd := none
    temperatures := ""
    network_bytes_sent := 0
    network_bytes_recv := 0
    network_packets_sent := 0
    network_packets_recv := 0
    processes_count := 0
    threads_count := 0 }

/-- Three synthetic records with CPU percents 10, 20, 30. -/
def demoStore : List MetricsRow :=
  [{ baseRow with timestamp := 1, cpu_percent := 10 },
   { baseRow with timestamp := 2, cpu_percent := 20 },
   { baseRow with timestamp := 3, cpu_percent := 30 }]

/-- First snapshot of a tick on which the wall clock advances between
the two sampling calls of `write_metrics`. -/
def rowA : MetricsRow := { baseRow with timestamp := 0, cpu_percent := 10 }

/-- Second snapshot of that tick. -/
def rowB : MetricsRow := { baseRow with timestamp := 1, cpu_percent := 20 }

/-- The sampling stream of that tick. -/
def tickSample : Nat → MetricsRow := fun n => if n = 0 then rowA else rowB

/-! ### Theorems: store claims -/

/-- C3: the primary-store append is idempotent on the timestamp key.
When the sampled snapshot's timestamp already keys a record of a store
whose timestamps are unique, `write_metrics_to_db` completes without
surfacing an error (the embedding is total: the `IntegrityError` is
swallowed), leaves the table identical to before the call, and the table
holds exactly one record with that timestamp. -/
theorem write_metrics_to_db_duplicate_idempotent (sample : Nat → MetricsRow)
    (s : MonState)
    (hnd : (s.db.map (fun r => r.timestamp)).Nodup)
    (hmem : (sample s.clock).timestamp ∈ s.db.map (fun r => r.timestamp)) :
    (write_metrics_to_db sample s).db = s.db
    ∧ ((write_metrics_to_db sample s).db.map (fun r => r.timestamp)).count
        (sample s.clock).timestamp = 1 := by
  have hany : s.db.any (fun r => r.timestamp == (sample s.clock).timestamp) = true := by
    rw [List.any_eq_true]
    obtain ⟨r, hr, hrt⟩ := List.mem_map.mp hmem
    exact ⟨r, hr, by simp [hrt]⟩
  have hdb : (write_metrics_to_db sample s).db = s.db := by
    simp [write_metrics_to_db, dbInsert, hany]
  refine ⟨hdb, ?_⟩
  rw [hdb]
  exact List.count_eq_one_of_mem hnd hmem

/-- C3 witness: appending a snapshot whose timestamp already keys the
single record of the store leaves the store unchanged with exactly one
matching record. -/
theorem write_metrics_to_db_duplicate_idempotent_witness :
    (write_metrics_to_db (fun _ => baseRow) ⟨[baseRow], [], 0⟩).db = [baseRow]
    ∧ ((write_metrics_to_db (fun _ => baseRow) ⟨[baseRow], [], 0⟩).db.map
        (fun r => r.timestamp)).count baseRow.timestamp = 1 := by
  have h := write_metrics_to_db_duplicate_idempotent (fun _ => baseRow)
    ⟨[baseRow], [], 0⟩ (by simp) (by simp)
  exact h

/-- C6: evaluation of one write tick with compression enabled, on a tick
where the wall clock advances between the two sampling calls. The
primary store receives the first sampled snapshot while the compressed
archive receives the second, different snapshot: the archive line does
NOT encode the same snapshot (its timestamp and CPU value differ),
because `write_metrics_to_db` and `write_metrics_compressed` each call
`get_hardware_metrics` separately. -/
theorem write_metrics_archive_not_mirror :
    (write_metrics tickSample true ⟨[], [], 0⟩).db = [rowA]
    ∧ (write_metrics tickSample true ⟨[], [], 0⟩).archive = [rowB]
    ∧ rowA.timestamp ≠ rowB.timestamp
    ∧ rowA.cpu_percent ≠ rowB.cpu_percent := by
  refine ⟨rfl, rfl, by decide, by decide⟩

/-- `sqlMinNat` on a non-empty list always yields `some` of either the
head or the minimum of the tail. -/
theorem sqlMinNat_cons (v : Nat) (vs : List Nat) :
    sqlMinNat (v :: vs) = some ((sqlMinNat vs).elim v (min v)) := by
  cases h : sqlMinNat vs <;> simp [sqlMinNat, h]

/-- `sqlMinNat` of a non-empty list is a member and a lower bound, i.e.
the earliest timestamp. -/
theorem sqlMinNat_spec (l : List Nat) (hne : l ≠ []) :
    ∃ t, sqlMinNat l = some t ∧ t ∈ l ∧ ∀ u ∈ l, t ≤ u := by
  induction l with
  | nil => exact absurd rfl hne
  | cons v vs ih =>
    by_cases hvs : vs = []
    · subst hvs
      exact ⟨v, by simp [sqlMinNat], by simp, by simp⟩
    · obtain ⟨t, ht, htm, hle⟩ := ih hvs
      refine ⟨min v t, ?_, ?_, ?_⟩
      · rw [sqlMinNat_cons, ht]; rfl
      · rcases le_total v t with h | h
        · rw [min_eq_left h]; exact List.mem_cons_self v vs
        · rw [min_eq_right h]; exact List.mem_cons_of_mem v htm
      · intro u hu
        rcases List.mem_cons.mp hu with rfl | hu'
        · exact min_le_left _ _
        · exact le_trans (min_le_right v t) (hle u hu')

/-- C8: the whole-store aggregate. The count is the number of records;
for the synthetic store with CPU percents [10, 20, 30] the CPU average
is 20 and the CPU maximum is 30; a record whose gpu (resp. cpu)
temperature is absent is excluded from the gpu average (resp. the cpu
temperature average and maximum) rather than counted as zero; and on a
non-empty store the reported start is the earliest timestamp. -/
theorem api_stats_spec :
    (∀ store : List MetricsRow, (api_stats store).total_registros = store.length)
    ∧ ((api_stats demoStore).cpu_promedio = some 20
       ∧ (api_stats demoStore).cpu_maximo = some 30)
    ∧ (∀ (r : MetricsRow) (l : List MetricsRow), r.temp_gpu = none →
        (api_stats (r :: l)).temp_gpu_avg = (api_stats l).temp_gpu_avg)
    ∧ (∀ (r : MetricsRow) (l : List MetricsRow), r.temp_cpu = none →
        (api_stats (r :: l)).temp_cpu_avg = (api_stats l).temp_cpu_avg
        ∧ (api_stats (r :: l)).temp_cpu_max = (api_stats l).temp_cpu_max)
    ∧ (∀ store : List MetricsRow, store ≠ [] →
        ∃ t, (api_stats store).desde = some t
          ∧ t ∈ store.map (fun r => r.timestamp)
          ∧ ∀ u ∈ store.map (fun r => r.timestamp), t ≤ u) := by
  refine ⟨fun store => rfl, ⟨?_, ?_⟩, ?_, ?_, ?_⟩
  · show sqlAvg (demoStore.map (fun r => r.cpu_percent)) = some 20
    norm_num [demoStore, sqlAvg]
  · show sqlMaxQ (demoStore.map (fun r => r.cpu_percent)) = some 30
    norm_num [demoStore, sqlMaxQ]
  · intro r l h
    show sqlAvg ((r :: l).filterMap (fun r => r.temp_gpu))
      = sqlAvg (l.filterMap (fun r => r.temp_gpu))
    rw [List.filterMap_cons, h]
  · intro r l h
    constructor
    · show sqlAvg ((r :: l).filterMap (fun r => r.temp_cpu))
        = sqlAvg (l.filterMap (fun r => r.temp_cpu))
      rw [List.filterMap_cons, h]
    · show sqlMaxQ ((r :: l).filterMap (fun r => r.temp_cpu))
        = sqlMaxQ (l.filterMap (fun r => r.temp_cpu))
      rw [List.filterMap_cons, h]
  · intro store hne
    obtain ⟨t, ht, htm, hle⟩ := sqlMinNat_spec (store.map (fun r => r.timestamp))
      (by simpa using hne)
    exact ⟨t, ht, htm, hle⟩

/-- C8 witness: the exclusion parts applied to a record with no gpu/cpu
temperature sensor, and the earliest-timestamp part applied to the
synthetic store. -/
theorem api_stats_spec_witness :
    (api_stats (baseRow :: demoStore)).temp_gpu_avg = (api_stats demoStore).temp_gpu_avg
    ∧ (api_stats (baseRow :: demoStore)).temp_cpu_avg = (api_stats demoStore).temp_cpu_avg
    ∧ (∃ t, (api_stats demoStore).desde = some t
        ∧ t ∈ demoStore.map (fun r => r.timestamp)
        ∧ ∀ u ∈ demoStore.map (fun r => r.timestamp), t ≤ u) := by
  refine ⟨api_stats_spec.2.2.1 baseRow demoStore rfl,
    (api_stats_spec.2.2.2.1 baseRow demoStore rfl).1,
    api_stats_spec.2.2.2.2 demoStore (by simp [demoStore])⟩

/-! ### Theorems: query-window and temperature-representation claims -/

/-- The explicit empty-result branch of `api_latest` coincides with the
general expression, so the endpoint is one projection of the reversed
window. -/
theorem api_latest_eq (store : List MetricsRow) :
    api_latest store = (((orderByTsDesc store).take 100).reverse).map projectLatest := by
  unfold api_latest
  by_cases hc : (orderByTsDesc store).take 100 = []
  · simp [hc]
  · simp [hc]

/-- Timestamps of the `api_latest` output: the reversed 100-element
prefix of the descending-sorted timestamps. -/
theorem api_latest_map_timestamp (store : List MetricsRow) :
    (api_latest store).map (fun r => r.timestamp)
      = (((orderByTsDesc store).map (fun r => r.timestamp)).take 100).reverse := by
  rw [api_latest_eq, List.map_map, List.map_reverse, ← List.map_take]
  rfl

/-- C7: the recent-window read. For every store with unique timestamps
and at least 100 records, `api_latest` returns exactly 100 records, in
strictly ascending timestamp order (oldest of the window first), each
drawn from the store, and they are the 100 most recent: every stored
timestamp outside the window is at most every timestamp inside it. A
store with zero records yields the well-defined empty list, not an
error. -/
theorem api_latest_recent_window :
    (∀ store : List MetricsRow,
      (store.map (fun r => r.timestamp)).Nodup →
      100 ≤ store.length →
        ((api_latest store).length = 100
        ∧ List.Pairwise (fun a b => a < b)
            ((api_latest store).map (fun r => r.timestamp))
        ∧ (∀ t ∈ (api_latest store).map (fun r => r.timestamp),
             t ∈ store.map (fun r => r.timestamp))
        ∧ (∀ u ∈ store.map (fun r => r.timestamp),
             u ∉ (api_latest store).map (fun r => r.timestamp) →
             ∀ t ∈ (api_latest store).map (fun r => r.timestamp), u ≤ t)))
    ∧ api_latest [] = [] := by
  constructor
  · intro store hnd hlen
    have hperm : ((orderByTsDesc store).map (fun r => r.timestamp)).Perm
        (store.map (fun r => r.timestamp)) :=
      (List.perm_insertionSort tsGe store).map _
    have hTnd : ((orderByTsDesc store).map (fun r => r.timestamp)).Nodup :=
      hperm.nodup_iff.mpr hnd
    have hTsorted : List.Pairwise (fun a b : Nat => b ≤ a)
        ((orderByTsDesc store).map (fun r => r.timestamp)) := by
      have hs := List.sorted_insertionSort tsGe store
      exact List.Pairwise.map _ (fun a b h => h) hs
    have hTlen : 100 ≤ ((orderByTsDesc store).map (fun r => r.timestamp)).length := by
      rw [List.length_map]
      have hpl := (List.perm_insertionSort tsGe store).length_eq
      rw [orderByTsDesc, hpl]
      exact hlen
    have hmapts := api_latest_map_timestamp store
    refine ⟨?_, ?_, ?_, ?_⟩
    · have : ((api_latest store).map (fun r => r.timestamp)).length = 100 := by
        rw [hmapts, List.length_reverse, List.length_take]
        exact Nat.min_eq_left hTlen
      rwa [List.length_map] at this
    · rw [hmapts, List.pairwise_reverse]
      have h1 : List.Pairwise (fun a b : Nat => b ≤ a)
          (((orderByTsDesc store).map (fun r => r.timestamp)).take 100) :=
        List.Pairwise.sublist (List.take_sublist _ _) hTsorted
      have h2 : (((orderByTsDesc store).map (fun r => r.timestamp)).take 100).Nodup :=
        List.Nodup.sublist (List.take_sublist _ _) hTnd
      exact (h1.and h2).imp (fun hab => lt_of_le_of_ne hab.1 (Ne.symm hab.2))
    · intro t ht
      rw [hmapts] at ht
      have ht' := List.take_subset _ _ (List.mem_reverse.mp ht)
      exact hperm.mem_iff.mp ht'
    · intro u hu hnotin t ht
      rw [hmapts] at hnotin ht
      have ht' : t ∈ ((orderByTsDesc store).map (fun r => r.timestamp)).take 100 :=
        List.mem_reverse.mp ht
      have hu' : u ∈ (orderByTsDesc store).map (fun r => r.timestamp) :=
        hperm.mem_iff.mpr hu
      have hunot : u ∉ ((orderByTsDesc store).map (fun r => r.timestamp)).take 100 :=
        fun hc => hnotin (List.mem_reverse.mpr hc)
      have hudrop : u ∈ ((orderByTsDesc store).map (fun r => r.timestamp)).drop 100 := by
        rw [← List.take_append_drop 100
          ((orderByTsDesc store).map (fun r => r.timestamp))] at hu'
        rcases List.mem_append.mp hu' with h | h
        · exact absurd h hunot
        · exact h
      have hsplit : List.Pairwise (fun a b : Nat => b ≤ a)
          (((orderByTsDesc store).map (fun r => r.timestamp)).take 100
            ++ ((orderByTsDesc store).map (fun r => r.timestamp)).drop 100) := by
        rw [List.take_append_drop]
        exact hTsorted
      exact (List.pairwise_append.mp hsplit).2.2 t ht' u hudrop
  · rfl

/-- A store of 150 records with distinct timestamps 0..149, for
instantiating the recent-window theorem. -/
def sampleStore : List MetricsRow :=
  (List.range 150).map (fun i => { baseRow with timestamp := i })

/-- The timestamps of `sampleStore` are exactly 0..149. -/
theorem sampleStore_timestamps :
    sampleStore.map (fun r => r.timestamp) = List.range 150 := by
  unfold sampleStore
  rw [List.map_map]
  exact List.map_id _

/-- C7 witness: on the 150-record store the window has exactly 100
records in strictly ascending timestamp order, and the empty store
yields the empty result. -/
theorem api_latest_recent_window_witness :
    (api_latest sampleStore).length = 100
    ∧ List.Pairwise (fun a b => a < b)
        ((api_latest sampleStore).map (fun r => r.timestamp))
    ∧ api_latest [] = [] := by
  have hnd : (sampleStore.map (fun r => r.timestamp)).Nodup := by
    rw [sampleStore_timestamps]; exact List.nodup_range 150
  have hlen : 100 ≤ sampleStore.length := by
    have : sampleStore.length = 150 := by
      simp [sampleStore]
    omega
  have h := api_latest_recent_window.1 sampleStore hnd hlen
  exact ⟨h.1, h.2.1, api_latest_recent_window.2⟩

/-- C9 counterexample: a stored record with no cpu temperature sensor
(`temp_cpu = none`) is represented by the recent-window endpoint
`api_latest` as the number 0 (`COALESCE(temp_cpu, 0)`), not as an
absent/null value, refuting the claim for that query result. -/
theorem api_latest_zero_for_absent_temp :
    baseRow.temp_cpu = none
    ∧ (api_latest [baseRow]).map (fun r => r.temp_cpu) = [0] := by
  exact ⟨rfl, rfl⟩

/-- C9 amended: the latest-temperature endpoint `api_temperatures`
passes the stored temperature fields through unchanged, so an absent
reading stays an absent/null value there; the recent-window endpoint
`api_latest`, by contrast, represents every temperature as
`COALESCE(temp, 0)`, so an absent reading is reported as the number
zero. -/
theorem temperature_absence_representation :
    (∀ (store : List MetricsRow) (out : TempsOut),
      api_temperatures store = some out →
      ∃ r, r ∈ store ∧ out.cpu = r.temp_cpu ∧ out.gpu = r.temp_gpu
        ∧ out.ssd = r.temp_ssd ∧ out.hdd = r.temp_hdd)
    ∧ (∀ (store : List MetricsRow) (pout : LatestRow),
      pout ∈ api_latest store →
      ∃ r, r ∈ store ∧ pout.temp_cpu = r.temp_cpu.getD 0
        ∧ pout.temp_gpu = r.temp_gpu.getD 0
        ∧ pout.temp_ssd = r.temp_ssd.getD 0
        ∧ pout.temp_hdd = r.temp_hdd.getD 0) := by
  constructor
  · intro store out h
    unfold api_temperatures at h
    cases hos : (orderByTsDesc store).head? with
    | none => rw [hos] at h; cases h
    | some r =>
      rw [hos] at h
      have hr : r ∈ store := by
        cases hlist : orderByTsDesc store with
        | nil => rw [hlist] at hos; cases hos
        | cons a tl =>
          rw [hlist] at hos
          have ha : a = r := by
            simpa using hos
          have : a ∈ orderByTsDesc store := by
            rw [hlist]; exact List.mem_cons_self a tl
          rw [← ha]
          exact (List.mem_insertionSort tsGe).mp this
      obtain rfl := (Option.some.injEq _ _).mp h
      exact ⟨r, hr, rfl, rfl, rfl, rfl⟩
  · intro store pout h
    rw [api_latest_eq] at h
    obtain ⟨r, hr, rfl⟩ := List.mem_map.mp h
    have hr2 : r ∈ store := by
      have h1 := List.take_subset _ _ (List.mem_reverse.mp hr)
      exact (List.mem_insertionSort tsGe).mp h1
    exact ⟨r, hr2, rfl, rfl, rfl, rfl⟩

/-- The payload `api_temperatures` returns on the one-record store
`[baseRow]`, for the witness below. -/
def tempsOutBase : TempsOut :=
  { timestamp := 0
    cpu := none
    gpu := none
    ssd := none
    hdd := none
    all_sensors := "\x7b\x7d" }

/-- C9 amended witness: on the one-record store whose record has no
temperature sensors, the latest-temperature payload carries the absent
readings through as null, and the recent-window payload substitutes 0. -/
theorem temperature_absence_representation_witness :
    (∃ r, r ∈ [baseRow] ∧ tempsOutBase.cpu = r.temp_cpu
      ∧ tempsOutBase.gpu = r.temp_gpu ∧ tempsOutBase.ssd = r.temp_ssd
      ∧ tempsOutBase.hdd = r.temp_hdd)
    ∧ (∃ r, r ∈ [baseRow] ∧ (projectLatest baseRow).temp_cpu = r.temp_cpu.getD 0
      ∧ (projectLatest baseRow).temp_gpu = r.temp_gpu.getD 0
      ∧ (projectLatest baseRow).temp_ssd = r.temp_ssd.getD 0
      ∧ (projectLatest baseRow).temp_hdd = r.temp_hdd.getD 0) := by
  refine ⟨temperature_absence_representation.1 [baseRow] tempsOutBase rfl,
    temperature_absence_representation.2 [baseRow] (projectLatest baseRow) ?_⟩
  rw [api_latest_eq]
  simp [orderByTsDesc]

/-- C5 amended witness: both failure outcomes evaluate to `none` at the
tag `"v1.2.0"`, and the success outcome yields the stripped tag. -/
theorem get_latest_release_failure_semantics_witness :
    get_latest_release true (ReleaseIndexOutcome.status 404 "v1.2.0") = none
    ∧ get_latest_release true ReleaseIndexOutcome.exn = none
    ∧ get_latest_release true (ReleaseIndexOutcome.status 404 "v1.2.0")
        = get_latest_release true ReleaseIndexOutcome.exn
    ∧ get_latest_release true (ReleaseIndexOutcome.status 200 "v1.2.0")
        = some ("v1.2.0".dropWhile (fun c => c = 'v')) :=
  get_latest_release_failure_semantics "v1.2.0" "v1.2.0"
